import Mathlib

/-!
Verification of the mockclock repository (Session.cpp).

The repository is a dependency-injection example: an abstract `Clock`
with `start`/`stop` readings, a `Session` that records a start timestamp
at construction and a stop timestamp on an explicit `stop()` call and
reports the elapsed seconds as their difference, plus stub clocks
(`TenMinuteClock`, `MockClock<Length>`) returning fixed values, and a
formatter `SessionReport::displayTime` rendering a seconds count as a
zero-padded `HH:MM:SS` string.

Modelling choices:
* `std::time_t` values are modelled as `Int` (64-bit signed in practice;
  no value in the program approaches the overflow range).
* The real clock (`TimeClock`) reads the current wall-clock time, so a
  clock reading is modelled as a function of the current wall-clock time
  `now : Int`; stub clocks ignore it, mirroring their constant returns.
* `Session`'s `stop_time` member is uninitialized in C++ until `stop()`
  is called; construction therefore takes an explicit `uninit` value
  standing for the indeterminate initial content.
-/

/-- A Clock exposes two readings, `start` and `stop`, each a `std::time_t`.
A reading may depend on the current wall-clock time `now`. -/
structure Clock where
  start : Int → Int
  stop : Int → Int

/-- `TimeClock::stop` returns `std::time(nullptr)`, the current wall-clock
time in seconds. -/
def TimeClock.stopImpl (now : Int) : Int := now

/-- `TimeClock`: the real clock. Its `start()` is implemented as a call to
`stop()`, which returns the current time. -/
def TimeClock : Clock :=
  { start := TimeClock.stopImpl, stop := TimeClock.stopImpl }

/-- `TenMinuteClock`: `start()` returns `0`, `stop()` returns `60 * 10`. -/
def TenMinuteClock : Clock :=
  { start := fun _ => 0, stop := fun _ => 60 * 10 }

/-- `MockClock<Length>`: `start()` returns `0`, `stop()` returns `Length`. -/
def MockClock (Length : Int) : Clock :=
  { start := fun _ => 0, stop := fun _ => Length }

/-- The state of a `Session` object: the injected clock reference and the
two timestamp members. -/
structure Session where
  clock : Clock
  start_time : Int
  stop_time : Int

/-- `Session::Session(const Clock& clock)`: captures
`start_time = clock.start()` at construction time (`now`). The
`stop_time` member is left uninitialized; `uninit` stands for its
indeterminate initial content. -/
def Session.construct (clock : Clock) (now : Int) (uninit : Int) : Session :=
  { clock := clock, start_time := clock.start now, stop_time := uninit }

/-- `Session::Session()` with the defaulted argument: uses a `TimeClock`
as the clock. -/
def Session.constructDefault (now : Int) (uninit : Int) : Session :=
  Session.construct TimeClock now uninit

/-- `Session::stop()`: captures `stop_time = clock.stop()` at the current
time `now`. -/
def Session.stop (s : Session) (now : Int) : Session :=
  { s with stop_time := s.clock.stop now }

/-- `Session::seconds()`: returns `stop_time - start_time`. -/
def Session.seconds (s : Session) : Int :=
  s.stop_time - s.start_time

/-- Modelled from the spec: `SessionReport.hpp` is not in the sources, so
the zero-padding of a field of `SessionReport::displayTime` follows the
spec's words: each field is zero-padded to two digits. -/
def pad2 (n : Nat) : String :=
  if n < 10 then "0" ++ toString n else toString n

/-- Modelled from the spec: `SessionReport.hpp` is not in the sources, so
`SessionReport::displayTime` follows the spec's words: compute
`hours = totalSeconds / 3600`, `minutes = (totalSeconds % 3600) / 60`,
`seconds = totalSeconds % 60`, and format the three values zero-padded
to two digits, joined by colons, as `HH:MM:SS`. -/
def displayTime (totalSeconds : Nat) : String :=
  let hours := totalSeconds / 3600
  let minutes := (totalSeconds % 3600) / 60
  let seconds := totalSeconds % 60
  pad2 hours ++ ":" ++ pad2 minutes ++ ":" ++ pad2 seconds

/-- The numeric value of a decimal digit character, `none` on anything
else. Used only to state that a formatted string parses back. -/
def digitVal (c : Char) : Option Nat :=
  if '0' ≤ c ∧ c ≤ '9' then some (c.toNat - '0'.toNat) else none

/-- Parse a character list of the exact shape `HH:MM:SS` back into a
seconds count; `none` if the shape is wrong. -/
def parseHHMMSSList : List Char → Option Nat
  | [h1, h2, c1, m1, m2, c2, s1, s2] =>
    if c1 = ':' ∧ c2 = ':' then
      match digitVal h1, digitVal h2, digitVal m1,
            digitVal m2, digitVal s1, digitVal s2 with
      | some a, some b, some c, some d, some e, some f =>
        some ((10 * a + b) * 3600 + (10 * c + d) * 60 + (10 * e + f))
      | _, _, _, _, _, _ => none
    else none
  | _ => none

/-- Parse a string of the exact shape `HH:MM:SS` back into a seconds
count. -/
def parseHHMMSS (s : String) : Option Nat :=
  parseHHMMSSList s.data

/-! ## Helper lemmas -/

/-- For a field value below 100, `pad2` renders exactly the two decimal
digits, high digit first. -/
theorem pad2_data : ∀ n < 100,
    (pad2 n).data = [Nat.digitChar (n / 10), Nat.digitChar (n % 10)] := by
  decide

/-- `digitVal` inverts `Nat.digitChar` on single digits. -/
theorem digitVal_digitChar : ∀ a < 10, digitVal (Nat.digitChar a) = some a := by
  decide

/-- The character list produced by `displayTime` for inputs below 100
hours: two digits, a colon, two digits, a colon, two digits. -/
theorem displayTime_data (s : Nat) (hs : s < 360000) :
    (displayTime s).data =
      [Nat.digitChar (s / 3600 / 10), Nat.digitChar (s / 3600 % 10), ':',
       Nat.digitChar (s % 3600 / 60 / 10), Nat.digitChar (s % 3600 / 60 % 10), ':',
       Nat.digitChar (s % 60 / 10), Nat.digitChar (s % 60 % 10)] := by
  have h1 : s / 3600 < 100 := by omega
  have h2 : s % 3600 / 60 < 100 := by omega
  have h3 : s % 60 < 100 := by omega
  show (pad2 (s / 3600) ++ ":" ++ pad2 (s % 3600 / 60) ++ ":" ++ pad2 (s % 60)).data = _
  rw [String.data_append, String.data_append, String.data_append, String.data_append,
      pad2_data _ h1, pad2_data _ h2, pad2_data _ h3]
  rfl

/-! ## Claims -/

/-- C1: for every non-negative integer s < 360000, `displayTime s` is a
string of exactly 8 characters of the shape `HH:MM:SS` with each field
zero-padded to two digits, and parsing the three fields back yields
hours * 3600 + minutes * 60 + seconds = s. -/
theorem displayTime_roundtrip (s : Nat) (hs : s < 360000) :
    (displayTime s).length = 8 ∧ parseHHMMSS (displayTime s) = some s := by
  have hd := displayTime_data s hs
  constructor
  · show (displayTime s).data.length = 8
    rw [hd]
    rfl
  · unfold parseHHMMSS
    rw [hd]
    have e1 := digitVal_digitChar (s / 3600 / 10) (by omega)
    have e2 := digitVal_digitChar (s / 3600 % 10) (by omega)
    have e3 := digitVal_digitChar (s % 3600 / 60 / 10) (by omega)
    have e4 := digitVal_digitChar (s % 3600 / 60 % 10) (by omega)
    have e5 := digitVal_digitChar (s % 60 / 10) (by omega)
    have e6 := digitVal_digitChar (s % 60 % 10) (by omega)
    simp only [parseHHMMSSList, e1, e2, e3, e4, e5, e6, and_self, reduceIte]
    exact congrArg some (by omega)

/-- Witness for C1 at the concrete input 3723 = 1 h 2 min 3 s. -/
theorem displayTime_roundtrip_witness :
    (displayTime 3723).length = 8 ∧ parseHHMMSS (displayTime 3723) = some 3723 :=
  displayTime_roundtrip 3723 (by decide)

/-- C2: for every non-negative integer totalSeconds, `displayTime` joins
hours = t / 3600, minutes = (t % 3600) / 60 and seconds = t % 60, each
zero-padded to two digits, with colons; in particular
`displayTime 2 = "00:00:02"` and `displayTime 600 = "00:10:00"`, the two
values the program asserts in `main`. -/
theorem displayTime_algorithm :
    (∀ t : Nat, displayTime t =
      pad2 (t / 3600) ++ ":" ++ pad2 (t % 3600 / 60) ++ ":" ++ pad2 (t % 60)) ∧
    displayTime 2 = "00:00:02" ∧ displayTime 600 = "00:10:00" := by
  refine ⟨fun t => rfl, ?_, ?_⟩ <;> rfl

/-- C3: a Session built on any stub clock whose `start()` is 0 and whose
`stop()` is 600 reports `seconds() = 600` after `stop()`, whatever
wall-clock times `t0` (construction) and `t1` (stop call) are. -/
theorem stub_session_six_hundred (c : Clock)
    (hstart : ∀ t, c.start t = 0) (hstop : ∀ t, c.stop t = 600)
    (t0 t1 uninit : Int) :
    ((Session.construct c t0 uninit).stop t1).seconds = 600 := by
  simp [Session.construct, Session.stop, Session.seconds, hstart, hstop]

/-- Witness for C3: the `TenMinuteClock` at arbitrary distinct wall-clock
instants. -/
theorem stub_session_six_hundred_witness :
    ((Session.construct TenMinuteClock 41 7).stop 987654).seconds = 600 :=
  stub_session_six_hundred TenMinuteClock (fun _ => rfl) (fun _ => rfl) 41 987654 7

/-- C4: `seconds()` returns exactly `stop_time - start_time`, with no
clamping; and there is a clock (here one with `start()` = 5 and
`stop()` = 3) for which the reported value is negative. -/
theorem seconds_no_clamping :
    (∀ s : Session, s.seconds = s.stop_time - s.start_time) ∧
    ∃ c : Clock, ∀ t0 t1 uninit : Int,
      ((Session.construct c t0 uninit).stop t1).seconds < 0 := by
  refine ⟨fun s => rfl, ⟨{ start := fun _ => 5, stop := fun _ => 3 }, ?_⟩⟩
  intro t0 t1 uninit
  show (3 : Int) - 5 < 0
  decide

/-- C5: construction captures `start_time = clock.start()` at the
construction instant; the defaulted constructor uses a `TimeClock`, which
remains the session's clock, so a later `stop()` reads the real time. -/
theorem construct_captures_start :
    (∀ (c : Clock) (t u : Int), (Session.construct c t u).start_time = c.start t) ∧
    (∀ t u : Int, Session.constructDefault t u = Session.construct TimeClock t u) ∧
    (∀ t u : Int, (Session.constructDefault t u).clock = TimeClock) ∧
    (∀ t u t' : Int,
      ((Session.constructDefault t u).stop t').stop_time = TimeClock.stopImpl t') :=
  ⟨fun _ _ _ => rfl, fun _ _ => rfl, fun _ _ => rfl, fun _ _ _ => rfl⟩

/-- C6: `stop()` writes a fresh `clock.stop()` reading into `stop_time`
and changes nothing else; a second `stop()` merely overwrites it, so the
session state and `seconds()` reflect only the last call. -/
theorem stop_frame (s : Session) (now : Int) :
    ((s.stop now).stop_time = s.clock.stop now) ∧
    ((s.stop now).clock = s.clock) ∧
    ((s.stop now).start_time = s.start_time) ∧
    (∀ now2 : Int, (s.stop now).stop now2 = s.stop now2) ∧
    (∀ now2 : Int,
      ((s.stop now).stop now2).seconds = s.clock.stop now2 - s.start_time) :=
  ⟨rfl, rfl, rfl, fun _ => rfl, fun _ => rfl⟩

/-- C7: two sessions built on independent `MockClock` instances with
durations A and B each report their own duration, at whatever wall-clock
instants the constructions and stops happen; neither result depends on
the other session's parameters or operations. -/
theorem independent_mock_sessions (A B t1 t2 u1 u2 ta tb : Int) :
    ((Session.construct (MockClock A) t1 u1).stop ta).seconds = A ∧
    ((Session.construct (MockClock B) t2 u2).stop tb).seconds = B := by
  constructor <;>
    simp [Session.construct, Session.stop, Session.seconds, MockClock]

/-- C8: every operation of the Clock and Session interfaces is total:
for every clock and every input it returns a value. -/
theorem operations_total (c : Clock) (t u t' : Int) :
    (∃ a : Int, c.start t = a) ∧ (∃ b : Int, c.stop t = b) ∧
    (∃ s : Session, Session.construct c t u = s) ∧
    (∃ s' : Session, (Session.construct c t u).stop t' = s') ∧
    (∃ r : Int, ((Session.construct c t u).stop t').seconds = r) :=
  ⟨⟨_, rfl⟩, ⟨_, rfl⟩, ⟨_, rfl⟩, ⟨_, rfl⟩, ⟨_, rfl⟩⟩

/-- C9: a default (real-clock) session constructed at wall-clock time t0
and stopped after a real delay of d seconds, with D ≤ d ≤ D + eps
(scheduling jitter), reports `seconds()` in the inclusive range
[D, D + eps]. -/
theorem real_clock_delay (t0 u D d eps : Int)
    (h1 : D ≤ d) (h2 : d ≤ D + eps) :
    D ≤ ((Session.constructDefault t0 u).stop (t0 + d)).seconds ∧
    ((Session.constructDefault t0 u).stop (t0 + d)).seconds ≤ D + eps := by
  have h : ((Session.constructDefault t0 u).stop (t0 + d)).seconds = d := by
    show t0 + d - t0 = d
    omega
  rw [h]
  exact ⟨h1, h2⟩

/-- Witness for C9: a 2-second delay with zero jitter at wall-clock
time 1000. -/
theorem real_clock_delay_witness :
    (2 : Int) ≤ ((Session.constructDefault 1000 9).stop (1000 + 2)).seconds ∧
    ((Session.constructDefault 1000 9).stop (1000 + 2)).seconds ≤ 2 + 0 :=
  real_clock_delay 1000 9 2 2 0 (by decide) (by decide)

/-- C10: `TenMinuteClock` and `MockClock 600` are the same clock:
`start()` is 0 and `stop()` is 600 for both, hence every session built
on one behaves exactly as the session built on the other. -/
theorem tenminute_equals_mock600 :
    TenMinuteClock = MockClock 600 ∧
    (∀ t, TenMinuteClock.start t = 0 ∧ (MockClock 600).start t = 0) ∧
    (∀ t, TenMinuteClock.stop t = 600 ∧ (MockClock 600).stop t = 600) ∧
    (∀ t0 u t1 : Int,
      (Session.construct TenMinuteClock t0 u).stop t1 =
      (Session.construct (MockClock 600) t0 u).stop t1) ∧
    (∀ t0 u t1 : Int,
      ((Session.construct TenMinuteClock t0 u).stop t1).seconds =
      ((Session.construct (MockClock 600) t0 u).stop t1).seconds) :=
  ⟨rfl, fun _ => ⟨rfl, rfl⟩, fun _ => ⟨rfl, rfl⟩, fun _ _ _ => rfl, fun _ _ _ => rfl⟩
